import Mathlib

/-!
# Verification of the shift-scheduler core (src/app.py)

A shallow embedding of the data model and the operations of the shift
scheduler: the schedule store (a pandas DataFrame with an integer index,
modelled as an ordered list of label/row pairs), the shift-swap workflow
(`process_approved_swap`, `update_shift_request_status`), the conflict-checked
schedule form submission, the auto-assignment generator and the notification
inbox operations.

Modelling conventions:
* Times of day and durations are natural numbers counting minutes, so the
  stored string "09:00" is 540 and a preferred duration of 9 hours is 540
  minutes (fractional hours such as 8.5 are representable).  The Python
  `strftime("%H:%M")` rendering of `start + timedelta(hours=h)` wraps past
  midnight, which is `% 1440` on minutes.
* A pandas DataFrame is an ordered list of (integer label, row) pairs.
  `DataFrame.drop(k)` removes the rows labelled `k`;
  `pd.concat([df, new], ignore_index=True)` keeps the rows in order and
  renumbers the labels `0..n-1`; `df.loc[k] = row` replaces the rows labelled
  `k` (and appends when the label is absent).
* `random.choices(options, weights)` is modelled by an oracle function from
  the options and weights to the drawn value; `uuid.uuid4()` draws are passed
  in as explicit string arguments.
* The `created_at`/`updated_at` timestamp strings and the optional
  notification `link` field play no role in any property proved here and are
  omitted from the records.
-/

set_option autoImplicit false

namespace ShiftApp

/-- One row of the schedule DataFrame (a shift).  Fields mirror
`src/app.py`'s schedule columns; timestamps are omitted. -/
structure Entry where
  date : String
  username : String
  name : String
  subteam : String
  start_time : Nat
  end_time : Nat
  location : String
  notes : String
  auto_assigned : Bool
deriving Repr, DecidableEq

/-- The schedule DataFrame: rows in order, each with its integer index label. -/
abbrev Sched := List (Nat × Entry)

/-- `schedule_id in self.schedule.index`. -/
def hasLabel (s : Sched) (k : Nat) : Bool :=
  s.any (fun p => p.1 = k)

/-- `self.schedule.loc[k]` as a lookup (first row with the label). -/
def getLabel (s : Sched) (k : Nat) : Option Entry :=
  (s.find? (fun p => p.1 = k)).map (fun p => p.2)

/-- `self.schedule.drop(k)`: removes the rows labelled `k`, keeping labels of
the surviving rows. -/
def dropLabel (s : Sched) (k : Nat) : Sched :=
  s.filter (fun p => p.1 ≠ k)

/-- `pd.concat([s, new_rows], ignore_index=True)`: rows kept in order and the
index renumbered `0..n-1`. -/
def concatIgnoreIndex (s : Sched) (new : List Entry) : Sched :=
  ((s.map (fun p => p.2)) ++ new).enum

/-- Per-user schedule preferences (`user_data['preferences']`); `none` models
an absent key, read with `.get(key, default)` in the source.
`preferred_hours` is a duration in minutes. -/
structure UserPrefs where
  preferred_location : Option String
  preferred_days : List String
  preferred_start_time : Option Nat
  preferred_hours : Option Nat
deriving Repr, DecidableEq

instance : Inhabited UserPrefs := ⟨⟨none, [], none, none⟩⟩

/-- One value of the `self.users` dict. -/
structure UserData where
  name : String
  subteam : String
  preferences : UserPrefs
deriving Repr, DecidableEq

instance : Inhabited UserData := ⟨⟨"", "", default⟩⟩

/-- `self.users`: a dict, i.e. an insertion-ordered association list. -/
abbrev Users := List (String × UserData)

/-- `self.users[u]` as a lookup. -/
def lookupUser (users : Users) (u : String) : Option UserData :=
  (users.find? (fun p => p.1 = u)).map (fun p => p.2)

/-- One row of the shift-requests DataFrame.  `schedule_id` is stored as a
string in the CSV but always written as `str(int)` and read back with
`int(float(...))`, so it is modelled as the integer label directly. -/
structure SwapRequest where
  request_id : String
  requester_username : String
  requester_name : String
  schedule_id : Nat
  date : String
  start_time : Nat
  end_time : Nat
  location : String
  target_username : String
  target_name : String
  status : String
  notes : String
  auto_assigned : Bool
deriving Repr, DecidableEq

abbrev Requests := List SwapRequest

/-- `self.shift_requests[self.shift_requests['request_id'] == rid].iloc[0]`:
the first row with the given id, if any. -/
def findRequest (reqs : Requests) (rid : String) : Option SwapRequest :=
  reqs.find? (fun r => r.request_id = rid)

/-- Result of `process_approved_swap`: the Python function returns `False`
after reporting an error with `st.error(msg)` (leaving `self.schedule`
untouched, since every failure return precedes the mutation), or `True` after
replacing `self.schedule`. -/
inductive SwapResult where
  | ok (sched : Sched)
  | error (msg : String)
deriving Repr, DecidableEq

/-- `SwapResult.isOk`. -/
def SwapResult.isOk : SwapResult → Bool
  | .ok _ => true
  | .error _ => false

/-- `process_approved_swap` (src/app.py:1362-1431).  Looks the request up,
builds the target user's new entry (reading `self.users[target]` for the
subteam — a missing user raises `KeyError`, caught by the blanket handler),
checks `schedule_id in self.schedule.index`, then drops the original row and
concatenates the new row with `ignore_index=True`. -/
def process_approved_swap (reqs : Requests) (users : Users) (rid : String)
    (sched : Sched) : SwapResult :=
  match findRequest reqs rid with
  | none => .error "Shift request not found."
  | some r =>
    match lookupUser users r.target_username with
    | none => .error "Error processing shift swap: KeyError"
    | some tu =>
      let target_schedule : Entry :=
        { date := r.date
          username := r.target_username
          name := r.target_name
          subteam := tu.subteam
          start_time := r.start_time
          end_time := r.end_time
          location := r.location
          notes := "Swapped with " ++ r.requester_name
          auto_assigned := r.auto_assigned }
      if hasLabel sched r.schedule_id then
        .ok (concatIgnoreIndex (dropLabel sched r.schedule_id) [target_schedule])
      else
        .error "Original schedule not found."

/-! ## Concrete scenario for the swap-workflow key claims

A two-row schedule (alice at label 0, bob at label 1) and an approved request
by alice targeting bob that references label 0. -/

def eAlice : Entry :=
  { date := "2025-01-06", username := "alice", name := "Alice"
    subteam := "Brokerage", start_time := 540, end_time := 1020
    location := "Office", notes := "", auto_assigned := true }

def eBob : Entry :=
  { date := "2025-01-06", username := "bob", name := "Bob"
    subteam := "Brokerage", start_time := 600, end_time := 1080
    location := "WFH", notes := "", auto_assigned := false }

def cexSched : Sched := [(0, eAlice), (1, eBob)]

def cexUsers : Users :=
  [("alice", { name := "Alice", subteam := "Brokerage", preferences := default }),
   ("bob", { name := "Bob", subteam := "Brokerage", preferences := default })]

def reqAB : SwapRequest :=
  { request_id := "r1", requester_username := "alice", requester_name := "Alice"
    schedule_id := 0, date := "2025-01-06", start_time := 540, end_time := 1020
    location := "Office", target_username := "bob", target_name := "Bob"
    status := "Approved", notes := "", auto_assigned := true }

/-- The entry the first transfer inserts for bob. -/
def swEntry : Entry :=
  { date := "2025-01-06", username := "bob", name := "Bob"
    subteam := "Brokerage", start_time := 540, end_time := 1020
    location := "Office", notes := "Swapped with Alice", auto_assigned := true }

/-- The schedule after the first approval: `ignore_index=True` renumbers, so
bob's pre-existing entry moves from label 1 to label 0 and the new swapped
entry takes label 1. -/
def cexSched1 : Sched := [(0, eBob), (1, swEntry)]

/-- C1: after the first transfer has consumed label 0, a second invocation of
`process_approved_swap` for the same request still finds label 0 occupied
(the concat renumbered the index), succeeds, deletes the unrelated entry that
now carries label 0 (bob's original shift), and inserts a second copy of the
swapped entry — instead of failing with NotFoundError and performing no
further transfer. -/
theorem second_approval_transfers_again :
    process_approved_swap [reqAB] cexUsers ("r1") cexSched = .ok cexSched1 ∧
    process_approved_swap [reqAB] cexUsers ("r1") cexSched1 =
      .ok [(0, swEntry), (1, swEntry)] ∧
    (process_approved_swap [reqAB] cexUsers ("r1") cexSched1).isOk = true ∧
    getLabel cexSched1 0 = some eBob ∧
    ([(0, swEntry), (1, swEntry)] : Sched).all (fun p => p.2 ≠ eBob) = true := by
  refine ⟨by decide, by decide, by decide, by decide, by decide⟩

/-- C2: schedule keys are not stable.  Before the approved swap the live
entry `eBob` is referenced by key 1; processing the swap of key 0 renumbers
the index, so afterwards `eBob` is referenced by key 0 and key 1 has been
reassigned to a different live entry (the newly inserted swapped entry). -/
theorem swap_transfer_renumbers_keys :
    getLabel cexSched 1 = some eBob ∧
    process_approved_swap [reqAB] cexUsers ("r1") cexSched = .ok cexSched1 ∧
    getLabel cexSched1 1 ≠ some eBob ∧
    getLabel cexSched1 1 = some swEntry ∧
    getLabel cexSched1 0 = some eBob := by
  refine ⟨by decide, by decide, by decide, by decide, by decide⟩

/-! ## Conflict checker and schedule form submission (src/app.py:3889-4009) -/

/-- `_parse_time` on a stored time: the string `"H:M"` is read back as
`time(H % 24, M % 60)`, which on the minute representation is `% 1440`. -/
def parse_time (t : Nat) : Nat := t % 1440

/-- The comparison set for the conflict check: `get_user_schedule` filtered
to the user and date, minus the entry being edited
(`user_schedule[user_schedule.index != editing_schedule_id]`). -/
def relevantEntries (sched : Sched) (username dateS : String)
    (editing : Option Nat) : Sched :=
  let user_sched := sched.filter
    (fun p => p.2.username == username && p.2.date == dateS)
  match editing with
  | some j => user_sched.filter (fun p => p.1 != j)
  | none => user_sched

/-- `self.schedule.loc[j, key] = value` for every field: replaces the rows
labelled `j`, appending a fresh row with that label when it is absent. -/
def upsertLabel (sched : Sched) (j : Nat) (e : Entry) : Sched :=
  if hasLabel sched j then
    sched.map (fun p => if p.1 = j then (j, e) else p)
  else
    sched ++ [(j, e)]

/-- The submit branch of `_create_schedule_input`: reject when
`end_time <= start_time`; reject on a half-open overlap
(`start_time < exist_end and end_time > exist_start`) with any entry of the
comparison set, leaving the store untouched; otherwise update the edited row
in place or concat the new row with `ignore_index=True`.  Returns whether the
submission was accepted together with the resulting schedule. -/
def submit_schedule (sched : Sched) (username nm subteam dateS : String)
    (startT endT : Nat) (location notes : String) (is_auto : Bool)
    (editing : Option Nat) : Bool × Sched :=
  if endT ≤ startT then (false, sched)
  else
    let user_sched := relevantEntries sched username dateS editing
    if user_sched.any (fun p =>
        decide (startT < parse_time p.2.end_time) &&
        decide (endT > parse_time p.2.start_time)) then
      (false, sched)
    else
      let entry : Entry :=
        { date := dateS, username := username, name := nm, subteam := subteam
          start_time := startT, end_time := endT, location := location
          notes := notes, auto_assigned := is_auto }
      match editing with
      | some j => (true, upsertLabel sched j entry)
      | none => (true, concatIgnoreIndex sched [entry])

/-- C3: for a candidate range with `startT < endT`, submission is rejected
iff some existing entry of the same user on the same date — excluding, when
editing, the entry being edited — overlaps in the half-open sense
(`startT < existEnd ∧ endT > existStart`, times read back through
`_parse_time`), and a rejected submission leaves the schedule unchanged. -/
theorem conflict_check_rejects_iff (sched : Sched)
    (username nm subteam dateS : String) (startT endT : Nat)
    (location notes : String) (is_auto : Bool) (editing : Option Nat)
    (h : startT < endT) :
    ((submit_schedule sched username nm subteam dateS startT endT location
        notes is_auto editing).1 = false ↔
      ∃ p : Nat × Entry, p ∈ sched ∧ p.2.username = username ∧
        p.2.date = dateS ∧ (∀ j, editing = some j → p.1 ≠ j) ∧
        startT < parse_time p.2.end_time ∧ endT > parse_time p.2.start_time) ∧
    ((submit_schedule sched username nm subteam dateS startT endT location
        notes is_auto editing).1 = false →
      (submit_schedule sched username nm subteam dateS startT endT location
        notes is_auto editing).2 = sched) := by
  have hns : ¬ endT ≤ startT := Nat.not_le.mpr h
  constructor
  · rw [submit_schedule]
    simp only [hns, if_false]
    by_cases hc : (relevantEntries sched username dateS editing).any (fun p =>
        decide (startT < parse_time p.2.end_time) &&
        decide (endT > parse_time p.2.start_time)) = true
    · simp only [hc, if_true]
      constructor
      · intro _
        rcases List.any_eq_true.mp hc with ⟨p, hp, hpred⟩
        have hpred2 := hpred
        simp only [Bool.and_eq_true, decide_eq_true_eq] at hpred2
        have hmem : p ∈ sched ∧ p.2.username = username ∧ p.2.date = dateS ∧
            (∀ j, editing = some j → p.1 ≠ j) := by
          unfold relevantEntries at hp
          cases editing with
          | none =>
            simp only [List.mem_filter, Bool.and_eq_true, beq_iff_eq] at hp
            exact ⟨hp.1, hp.2.1, hp.2.2, fun j hj => by cases hj⟩
          | some j =>
            simp only [List.mem_filter, Bool.and_eq_true, beq_iff_eq,
              bne_iff_ne] at hp
            exact ⟨hp.1.1, hp.1.2.1, hp.1.2.2,
              fun j2 hj2 => by cases hj2; exact hp.2⟩
        exact ⟨p, hmem.1, hmem.2.1, hmem.2.2.1, hmem.2.2.2, hpred2.1, hpred2.2⟩
      · intro _; trivial
    · simp only [hc, if_false]
      constructor
      · intro hfalse
        exfalso
        cases editing with
        | none => simp at hfalse
        | some j => simp at hfalse
      · intro ⟨p, hmem, hu, hd, hj, h1, h2⟩
        exfalso
        apply hc
        apply List.any_eq_true.mpr
        refine ⟨p, ?_, ?_⟩
        · unfold relevantEntries
          cases editing with
          | none =>
            simp only [List.mem_filter, Bool.and_eq_true, beq_iff_eq]
            exact ⟨hmem, hu, hd⟩
          | some j2 =>
            simp only [List.mem_filter, Bool.and_eq_true, beq_iff_eq,
              bne_iff_ne]
            exact ⟨⟨hmem, hu, hd⟩, hj j2 rfl⟩
        · simp only [Bool.and_eq_true, decide_eq_true_eq]
          exact ⟨h1, h2⟩
  · intro hrej
    rw [submit_schedule] at hrej ⊢
    simp only [hns, if_false] at hrej ⊢
    by_cases hc : (relevantEntries sched username dateS editing).any (fun p =>
        decide (startT < parse_time p.2.end_time) &&
        decide (endT > parse_time p.2.start_time)) = true
    · simp only [hc, if_true]
    · simp only [hc, if_false] at hrej ⊢
      exfalso
      cases editing with
      | none => simp at hrej
      | some j => simp at hrej

/-- Witness for `conflict_check_rejects_iff` at a concrete input: alice
already works 09:00-17:00 on 2025-01-06, and a candidate 10:00-11:00 shift
for her on that date is rejected with the store unchanged. -/
theorem conflict_check_rejects_iff_witness :
    540 < 660 ∧
    (((submit_schedule cexSched ("alice") ("Alice") ("Brokerage")
        ("2025-01-06") 600 660 ("Office") ("") false none).1 = false ↔
      ∃ p : Nat × Entry, p ∈ cexSched ∧ p.2.username = "alice" ∧
        p.2.date = "2025-01-06" ∧ (∀ j, (none : Option Nat) = some j → p.1 ≠ j) ∧
        600 < parse_time p.2.end_time ∧ 660 > parse_time p.2.start_time) ∧
    ((submit_schedule cexSched ("alice") ("Alice") ("Brokerage")
        ("2025-01-06") 600 660 ("Office") ("") false none).1 = false →
      (submit_schedule cexSched ("alice") ("Alice") ("Brokerage")
        ("2025-01-06") 600 660 ("Office") ("") false none).2 = cexSched)) :=
  ⟨by decide,
   conflict_check_rejects_iff cexSched ("alice") ("Alice") ("Brokerage")
     ("2025-01-06") 600 660 ("Office") ("") false none (by decide)⟩

/-! ## Auto-assignment engine (src/app.py:226-361) -/

/-- A calendar date as the algorithm consumes it: its `%Y-%m-%d` string, its
`date.weekday()` (Monday = 0), and its `%A` weekday name. -/
structure CalDate where
  dateStr : String
  weekday : Nat
  dayName : String
deriving Repr, DecidableEq

/-- The distinct subteams in first-appearance order — the key order of the
Python dict built by appending each user to `subteam_users[subteam]`. -/
def subteamOrder (users : Users) : List String :=
  (users.map (fun p => p.2.subteam)).foldl
    (fun acc s => if s ∈ acc then acc else acc ++ [s]) []

/-- `subteam_users`: each subteam with its members in traversal order. -/
def group_by_subteam (users : Users) : List (String × Users) :=
  (subteamOrder users).map
    (fun s => (s, users.filter (fun p => p.2.subteam == s)))

/-- Member selection for one date: `members_per_day = max(1, len(users)//5)`
members at indices `(day_index + i) % len(users)` for `i < members_per_day`.
(`List.getD` with a default stands for Python indexing, which never sees an
out-of-range index here because the modulus is the list length.) -/
def select_users (members : Users) (dayIndex : Nat) : Users :=
  (List.range (max 1 (members.length / 5))).map
    (fun i => members.getD ((dayIndex + i) % members.length) default)

/-- The `random.choices` oracle: given the options and the weights, yields
the drawn value. -/
abbrev Draw := List String → List Nat → String

/-- The location weights (percent Office/WFH): base 70/30, shifted to 90/10
or 20/80 by the preferred location, and further to 10/90 when the weekday
name is a preferred day and the preferred location is WFH.  A stored empty
string is falsy in Python and behaves like an absent preference. -/
def location_weights (prefs : UserPrefs) (dayName : String) : List Nat :=
  let w1 :=
    match prefs.preferred_location with
    | some s => if s = "Office" then [90, 10]
                else if s = "WFH" then [20, 80]
                else [70, 30]
    | none => [70, 30]
  if prefs.preferred_days.contains dayName &&
      prefs.preferred_location == some "WFH" then [10, 90] else w1

/-- One generated schedule entry for a selected member: location from the
weighted draw, start from `preferred_start_time` (default 09:00 = 540), end
`start + preferred_hours` (default 9 h = 540 min) rendered `%H:%M`, i.e.
wrapped `% 1440`. -/
def make_entry (draw : Draw) (d : CalDate) (subteam : String)
    (m : String × UserData) : Entry :=
  let prefs := m.2.preferences
  let startT := prefs.preferred_start_time.getD 540
  let hoursMin := prefs.preferred_hours.getD 540
  { date := d.dateStr
    username := m.1
    name := m.2.name
    subteam := subteam
    start_time := startT
    end_time := (startT + hoursMin) % 1440
    location := draw ["Office", "WFH"] (location_weights prefs d.dayName)
    notes := "Auto-assigned shift"
    auto_assigned := true }

/-- `new_schedules` as built by `_auto_assign_shifts`: a no-op on an empty
user set, otherwise one entry per date, subteam and selected member (empty
groups skipped). -/
def auto_assign_new_schedules (users : Users) (dates : List CalDate)
    (draw : Draw) : List Entry :=
  if users.isEmpty then []
  else
    dates.flatMap (fun d =>
      (group_by_subteam users).flatMap (fun g =>
        if g.2.isEmpty then []
        else (select_users g.2 d.weekday).map (make_entry draw d g.1)))

/-- The projection of a generated entry that is independent of the random
location draw. -/
def entryKey (e : Entry) : String × String := (e.date, e.username)

lemma entryKey_make_entry (draw : Draw) (d : CalDate) (subteam : String)
    (m : String × UserData) :
    entryKey (make_entry draw d subteam m) = (d.dateStr, m.1) := rfl

lemma map_entryKey_flatMap {α : Type} (l : List α) (f g : α → List Entry)
    (h : ∀ a ∈ l, (f a).map entryKey = (g a).map entryKey) :
    (l.flatMap f).map entryKey = (l.flatMap g).map entryKey := by
  induction l with
  | nil => rfl
  | cons a rest ih =>
    simp only [List.flatMap_cons, List.map_append]
    rw [h a (List.mem_cons_self a rest),
      ih (fun b hb => h b (List.mem_cons_of_mem a hb))]

/-- Monday 2025-01-06, used by several concrete scenarios. -/
def mondayDate : CalDate := ⟨"2025-01-06", 0, "Monday"⟩

/-- A draw oracle that always returns Office. -/
def officeDraw : Draw := fun _ _ => "Office"

/-- A member whose stored preferences have neither a preferred start time
nor preferred hours. -/
def noPrefUser : UserData := ⟨"Uma", "Ops", default⟩

/-- C4 counterexample: auto-assignment for a member with no stored preferred
start time and no stored preferred hours produces start 09:00 (540) and end
18:00 (1080) — the fallback duration in `_auto_assign_shifts` is
`user_prefs.get('preferred_hours', 9)`, nine hours — not 17:00 (1020) as the
claim states. -/
theorem auto_default_hours_cex :
    (auto_assign_new_schedules [("uma", noPrefUser)] [mondayDate] officeDraw).map
        (fun e => (e.start_time, e.end_time)) = [(540, 1080)] ∧
    (auto_assign_new_schedules [("uma", noPrefUser)] [mondayDate] officeDraw).all
        (fun e => e.end_time ≠ 1020) = true := by
  refine ⟨by decide, by decide⟩

/-- C4 as amended: every entry generated by auto-assignment arises as
`make_entry` of some date, group and selected member, and for a member whose
preferences store neither a preferred start time nor preferred hours,
`make_entry` yields start 09:00 (540) and end 09:00 + 9 h = 18:00 (1080). -/
theorem auto_default_times (users : Users) (dates : List CalDate)
    (draw : Draw) :
    (∀ e ∈ auto_assign_new_schedules users dates draw,
      ∃ d g m, d ∈ dates ∧ g ∈ group_by_subteam users ∧
        m ∈ select_users g.2 d.weekday ∧ e = make_entry draw d g.1 m) ∧
    (∀ (d : CalDate) (subteam : String) (m : String × UserData),
      m.2.preferences.preferred_start_time = none →
      m.2.preferences.preferred_hours = none →
      (make_entry draw d subteam m).start_time = 540 ∧
      (make_entry draw d subteam m).end_time = 1080) := by
  constructor
  · intro e he
    unfold auto_assign_new_schedules at he
    by_cases hu : users.isEmpty
    · simp [hu] at he
    · simp only [hu, if_false] at he
      rcases List.mem_flatMap.mp he with ⟨d, hd, he2⟩
      rcases List.mem_flatMap.mp he2 with ⟨g, hg, he3⟩
      by_cases hge : g.2.isEmpty
      · simp [hge] at he3
      · simp only [hge, if_false] at he3
        rcases List.mem_map.mp he3 with ⟨m, hm, hme⟩
        exact ⟨d, g, m, hd, hg, hm, hme.symm⟩
  · intro d subteam m h1 h2
    constructor
    · show m.2.preferences.preferred_start_time.getD 540 = 540
      rw [h1]; rfl
    · show (m.2.preferences.preferred_start_time.getD 540 +
        m.2.preferences.preferred_hours.getD 540) % 1440 = 1080
      rw [h1, h2]; rfl

/-- Witness for `auto_default_times`: the single generated entry of the
concrete no-preference scenario has the provenance shape, and `make_entry`
on the no-preference member gives 540/1080. -/
theorem auto_default_times_witness :
    (∃ d g m, d ∈ [mondayDate] ∧
      g ∈ group_by_subteam [("uma", noPrefUser)] ∧
      m ∈ select_users g.2 d.weekday ∧
      make_entry officeDraw mondayDate ("Ops") (("uma"), noPrefUser) =
        make_entry officeDraw d g.1 m) ∧
    ((make_entry officeDraw mondayDate ("Ops")
        (("uma"), noPrefUser)).start_time = 540 ∧
      (make_entry officeDraw mondayDate ("Ops")
        (("uma"), noPrefUser)).end_time = 1080) := by
  have h := auto_default_times [(("uma"), noPrefUser)] [mondayDate] officeDraw
  refine ⟨?_, h.2 mondayDate ("Ops") (("uma"), noPrefUser) rfl rfl⟩
  have hmem : make_entry officeDraw mondayDate ("Ops") (("uma"), noPrefUser) ∈
      auto_assign_new_schedules [(("uma"), noPrefUser)] [mondayDate]
        officeDraw := by decide
  rcases h.1 _ hmem with ⟨d, g, m, hd, hg, hm, hme⟩
  exact ⟨d, g, m, hd, hg, hm, hme⟩

/-- C8 failing input: a member who prefers to start at 20:00 (1200) with no
stored preferred hours.  The nine-hour default wraps past midnight under the
`%H:%M` rendering, producing end 05:00 (300), which is not after the start. -/
def lateUser : UserData :=
  ⟨"Dana", "Ops", { preferred_location := none, preferred_days := []
                    preferred_start_time := some 1200, preferred_hours := none }⟩

/-- C8: auto-assignment produces (and `_save_schedule` persists) an entry
whose end time is not strictly after its start time: start 20:00, end 05:00
after the midnight wrap. -/
theorem auto_assign_midnight_wrap :
    (auto_assign_new_schedules [("dana", lateUser)] [mondayDate] officeDraw).map
        (fun e => (e.start_time, e.end_time)) = [(1200, 300)] ∧
    (auto_assign_new_schedules [("dana", lateUser)] [mondayDate]
        officeDraw).all (fun e => decide (e.start_time < e.end_time)) = false := by
  refine ⟨by decide, by decide⟩

/-- C5: for a nonempty team, the selection for a date has exactly
`max 1 (teamSize / 5)` members, the i-th selected member is the one at index
`(dayIndex + i) % teamSize`, and the (date, username) slate produced by a
full generation run does not depend on the random location draw, so repeated
invocations over the same roster and dates select the same members. -/
theorem auto_selection_deterministic (members : Users) (dayIndex : Nat)
    (users : Users) (dates : List CalDate) (d1 d2 : Draw)
    (h : members ≠ []) :
    (select_users members dayIndex).length = max 1 (members.length / 5) ∧
    (∀ i, i < max 1 (members.length / 5) →
      (select_users members dayIndex)[i]? =
        members[(dayIndex + i) % members.length]?) ∧
    (auto_assign_new_schedules users dates d1).map entryKey =
      (auto_assign_new_schedules users dates d2).map entryKey := by
  refine ⟨by simp [select_users], ?_, ?_⟩
  · intro i hi
    have hlen : 0 < members.length := List.length_pos.mpr h
    have hidx : (dayIndex + i) % members.length < members.length :=
      Nat.mod_lt _ hlen
    unfold select_users
    rw [List.getElem?_map, List.getElem?_range hi]
    show some (members.getD ((dayIndex + i) % members.length) default) =
      members[(dayIndex + i) % members.length]?
    rw [List.getD_eq_getElem?_getD, List.getElem?_eq_getElem hidx]
    rfl
  · unfold auto_assign_new_schedules
    cases hu : users.isEmpty with
    | true => rfl
    | false =>
      simp only [Bool.false_eq_true, if_false]
      apply map_entryKey_flatMap
      intro d _
      apply map_entryKey_flatMap
      intro g _
      cases hge : g.2.isEmpty with
      | true => rfl
      | false =>
        simp only [Bool.false_eq_true, if_false, List.map_map]
        apply List.map_congr_left
        intro m _
        simp [Function.comp, entryKey_make_entry]

/-- Witness for `auto_selection_deterministic` on the spec's example team of
two (alice, bob) on a Monday: one member is selected, namely the member at
index 0 (alice), and the generated slate is draw-independent. -/
theorem auto_selection_deterministic_witness :
    ([("alice", noPrefUser), ("bob", noPrefUser)] : Users) ≠ [] ∧
    ((select_users [("alice", noPrefUser), ("bob", noPrefUser)] 0).length =
        max 1 (([("alice", noPrefUser), ("bob", noPrefUser)] : Users).length / 5) ∧
      (∀ i, i < max 1 (([("alice", noPrefUser), ("bob", noPrefUser)] : Users).length / 5) →
        (select_users [("alice", noPrefUser), ("bob", noPrefUser)] 0)[i]? =
          ([("alice", noPrefUser), ("bob", noPrefUser)] : Users)[(0 + i) %
            ([("alice", noPrefUser), ("bob", noPrefUser)] : Users).length]?) ∧
      (auto_assign_new_schedules [("alice", noPrefUser), ("bob", noPrefUser)]
          [mondayDate] officeDraw).map entryKey =
        (auto_assign_new_schedules [("alice", noPrefUser), ("bob", noPrefUser)]
          [mondayDate] (fun _ _ => "WFH")).map entryKey) :=
  ⟨by decide,
   auto_selection_deterministic
     [(("alice"), noPrefUser), (("bob"), noPrefUser)] 0
     [(("alice"), noPrefUser), (("bob"), noPrefUser)] [mondayDate]
     officeDraw (fun _ _ => "WFH") (by decide)⟩

/-! ## Notification service (src/app.py:984-1149) -/

/-- One notification; the optional link and the creation timestamp are
omitted.  `ntype` is the record's `type` field. -/
structure Notif where
  id : String
  message : String
  ntype : String
  read : Bool
deriving Repr, DecidableEq

abbrev Inbox := List Notif

/-- `self.notifications`: a dict keyed by username, insertion-ordered. -/
abbrev Notifs := List (String × Inbox)

/-- `username in self.notifications`. -/
def hasInbox (notifs : Notifs) (u : String) : Bool :=
  notifs.any (fun p => p.1 = u)

/-- `self.notifications[username]` (empty when absent; every read in the
source is guarded by a membership check or an initialising assignment). -/
def get_inbox (notifs : Notifs) (u : String) : Inbox :=
  ((notifs.find? (fun p => p.1 = u)).map (fun p => p.2)).getD []

/-- `self.notifications[username] = l`: replaces the binding, appending a new
one (dict insertion order) when the key is absent. -/
def set_inbox (notifs : Notifs) (u : String) (l : Inbox) : Notifs :=
  if hasInbox notifs u then
    notifs.map (fun p => if p.1 = u then (u, l) else p)
  else
    notifs ++ [(u, l)]

/-- `add_notification`: prepend the new notification (its uuid passed in as
`newId`), then truncate to the 50 newest. -/
def add_notification (notifs : Notifs) (u msg ntype newId : String) : Notifs :=
  let inbox : Inbox :=
    { id := newId, message := msg, ntype := ntype, read := false } ::
      get_inbox notifs u
  let inbox2 := if inbox.length > 50 then inbox.take 50 else inbox
  set_inbox notifs u inbox2

/-- `mark_notification_as_read`: `False` for an unknown username; otherwise
set `read` on the first notification with the id (the loop breaks at the
first match) and return `True` — also when no notification matched. -/
def mark_first_read : Inbox → String → Inbox
  | [], _ => []
  | n :: rest, nid =>
    if n.id = nid then { n with read := true } :: rest
    else n :: mark_first_read rest nid

def mark_notification_as_read (notifs : Notifs) (u nid : String) :
    Bool × Notifs :=
  if hasInbox notifs u then
    (true, set_inbox notifs u (mark_first_read (get_inbox notifs u) nid))
  else
    (false, notifs)

/-- `delete_notification`: `False` for an unknown username; otherwise filter
the id out and return `True` — also when nothing was removed. -/
def delete_notification (notifs : Notifs) (u nid : String) : Bool × Notifs :=
  if hasInbox notifs u then
    (true, set_inbox notifs u
      ((get_inbox notifs u).filter (fun n => n.id != nid)))
  else
    (false, notifs)

lemma find?_map_set (n : Notifs) (u : String) (l : Inbox) :
    (n.map (fun p => if p.1 = u then (u, l) else p)).find?
        (fun p => p.1 = u) =
      if hasInbox n u then some (u, l) else none := by
  induction n with
  | nil => rfl
  | cons p rest ih =>
    by_cases hp : p.1 = u
    · simp [hasInbox, List.find?, hp]
    · simp only [List.map_cons, if_neg hp]
      rw [List.find?_cons_of_neg _ (by simpa using hp)]
      rw [ih]
      have hcond : hasInbox (p :: rest) u = hasInbox rest u := by
        simp [hasInbox, hp]
      rw [hcond]

lemma find?_map_set_other (n : Notifs) (u v : String) (l : Inbox)
    (h : v ≠ u) :
    (n.map (fun p => if p.1 = u then (u, l) else p)).find?
        (fun p => p.1 = v) =
      n.find? (fun p => p.1 = v) := by
  induction n with
  | nil => rfl
  | cons p rest ih =>
    by_cases hp : p.1 = u
    · have h1 : ¬((u, l).1 = v) := fun hc => h hc.symm
      have h2 : ¬(p.1 = v) := fun hc => h (hp.symm.trans hc).symm
      simp only [List.map_cons, if_pos hp]
      rw [List.find?_cons_of_neg _ (by simpa using h1),
        List.find?_cons_of_neg _ (by simpa using h2)]
      exact ih
    · simp only [List.map_cons, if_neg hp]
      by_cases hv : p.1 = v
      · rw [List.find?_cons_of_pos _ (by simpa using hv),
          List.find?_cons_of_pos _ (by simpa using hv)]
      · rw [List.find?_cons_of_neg _ (by simpa using hv),
          List.find?_cons_of_neg _ (by simpa using hv)]
        exact ih

lemma get_inbox_set_inbox_self (n : Notifs) (u : String) (l : Inbox) :
    get_inbox (set_inbox n u l) u = l := by
  unfold set_inbox
  by_cases hn : hasInbox n u = true
  · rw [if_pos hn]
    unfold get_inbox
    rw [find?_map_set, if_pos hn]
    rfl
  · rw [if_neg hn]
    unfold get_inbox
    have hnone : n.find? (fun p => p.1 = u) = none := by
      rw [List.find?_eq_none]
      intro p hp hcon
      exact hn (List.any_eq_true.mpr ⟨p, hp, hcon⟩)
    rw [List.find?_append, hnone]
    simp [List.find?]

lemma get_inbox_set_inbox_other (n : Notifs) (u v : String) (l : Inbox)
    (h : v ≠ u) :
    get_inbox (set_inbox n u l) v = get_inbox n v := by
  unfold set_inbox
  by_cases hn : hasInbox n u = true
  · rw [if_pos hn]
    unfold get_inbox
    rw [find?_map_set_other n u v l h]
  · rw [if_neg hn]
    unfold get_inbox
    rw [List.find?_append]
    cases hf : n.find? (fun p => p.1 = v) with
    | some p => rfl
    | none =>
      simp only [Option.none_or]
      rw [List.find?_cons_of_neg _ (by simpa using (Ne.symm h))]
      rfl

lemma mark_first_read_no_match (l : Inbox) (nid : String)
    (h : ∀ n ∈ l, n.id ≠ nid) : mark_first_read l nid = l := by
  induction l with
  | nil => rfl
  | cons n rest ih =>
    unfold mark_first_read
    rw [if_neg (h n (List.mem_cons_self n rest))]
    rw [ih (fun m hm => h m (List.mem_cons_of_mem n hm))]

/-- C9 counterexample: with a known username and an id that is in no
notification, both operations return `True`, not failure/false. -/
def cexNotifs : Notifs :=
  [("alice", [{ id := "a", message := "m", ntype := "info", read := false }])]

theorem notification_unknown_id_returns_true :
    (mark_notification_as_read cexNotifs ("alice") ("zzz")).1 = true ∧
    (delete_notification cexNotifs ("alice") ("zzz")).1 = true := by
  refine ⟨by decide, by decide⟩

/-- C9 as amended: an unknown username makes `markRead` and `delete`
idempotent no-ops returning `False`; a known username with an id that
matches no notification leaves every stored inbox unchanged but returns
`True`.  Neither operation raises. -/
theorem notification_ops_unknown (notifs : Notifs) (u nid : String) :
    (hasInbox notifs u = false →
      mark_notification_as_read notifs u nid = (false, notifs) ∧
      delete_notification notifs u nid = (false, notifs)) ∧
    (hasInbox notifs u = true →
      (∀ n ∈ get_inbox notifs u, n.id ≠ nid) →
      (mark_notification_as_read notifs u nid).1 = true ∧
      (delete_notification notifs u nid).1 = true ∧
      (∀ v, get_inbox (mark_notification_as_read notifs u nid).2 v =
        get_inbox notifs v) ∧
      (∀ v, get_inbox (delete_notification notifs u nid).2 v =
        get_inbox notifs v)) := by
  constructor
  · intro h
    have hn : ¬ hasInbox notifs u = true := by rw [h]; exact Bool.false_ne_true
    unfold mark_notification_as_read delete_notification
    rw [if_neg hn, if_neg hn]
    exact ⟨rfl, rfl⟩
  · intro h hnone
    unfold mark_notification_as_read delete_notification
    rw [if_pos h, if_pos h]
    refine ⟨rfl, rfl, ?_, ?_⟩
    · intro v
      by_cases hv : v = u
      · subst hv
        rw [get_inbox_set_inbox_self, mark_first_read_no_match _ _ hnone]
      · exact get_inbox_set_inbox_other notifs u v _ hv
    · intro v
      by_cases hv : v = u
      · subst hv
        rw [get_inbox_set_inbox_self]
        rw [List.filter_eq_self.mpr]
        intro n hn
        simpa using hnone n hn
      · exact get_inbox_set_inbox_other notifs u v _ hv

/-- Witness for `notification_ops_unknown`: the unknown-user branch at
username bob and the known-user/unknown-id branch at alice, both on the
concrete store. -/
theorem notification_ops_unknown_witness :
    (mark_notification_as_read cexNotifs ("bob") ("zzz") = (false, cexNotifs) ∧
      delete_notification cexNotifs ("bob") ("zzz") = (false, cexNotifs)) ∧
    ((mark_notification_as_read cexNotifs ("alice") ("zzz")).1 = true ∧
      (delete_notification cexNotifs ("alice") ("zzz")).1 = true ∧
      (∀ v, get_inbox (mark_notification_as_read cexNotifs ("alice")
          ("zzz")).2 v = get_inbox cexNotifs v) ∧
      (∀ v, get_inbox (delete_notification cexNotifs ("alice")
          ("zzz")).2 v = get_inbox cexNotifs v)) :=
  ⟨(notification_ops_unknown cexNotifs ("bob") ("zzz")).1 (by decide),
   (notification_ops_unknown cexNotifs ("alice") ("zzz")).2 (by decide)
     (by decide)⟩

/-! ## Swap workflow: `update_shift_request_status` (src/app.py:1287-1359) -/

/-- The state the workflow touches: the requests DataFrame, the schedule
DataFrame and the notification store. -/
structure WFState where
  requests : Requests
  sched : Sched
  notifs : Notifs
deriving Repr, DecidableEq

/-- `self.shift_requests.loc[request_mask, 'status'] = status`: every row
with the request id gets the new status, whatever its current status. -/
def set_request_status (reqs : Requests) (rid status : String) : Requests :=
  reqs.map (fun r =>
    if r.request_id = rid then { r with status := status } else r)

/-- The error notification text used on a failed post-approval transfer. -/
def swapIssueMsg : String :=
  "There was an issue processing the swap. Please contact support."

/-- `update_shift_request_status`: look the request up (first row), write the
new status unconditionally, then branch on the status string.  On Approved
the requester's success notification is added, then `process_approved_swap`
runs on the already-updated state; when it fails both parties receive the
error notification and the operation returns `False` (the status stays
persisted as Approved).  The `ids` argument supplies the uuid draws of the
successive `add_notification` calls. -/
def update_shift_request_status (users : Users) (s : WFState)
    (rid status : String) (ids : Nat → String) : Bool × WFState :=
  match findRequest s.requests rid with
  | none => (false, s)
  | some r =>
    let s1 : WFState :=
      { s with requests := set_request_status s.requests rid status }
    if status = "Approved" then
      match lookupUser users r.target_username with
      | none => (false, s1)
      | some tu =>
        let msgApproved : String :=
          "Your shift swap request for " ++ r.date ++ " was approved by " ++
            tu.name
        let n2 : Notifs :=
          add_notification s1.notifs r.requester_username msgApproved
            ("success") (ids 0)
        let s2 : WFState := { s1 with notifs := n2 }
        match process_approved_swap s2.requests users rid s2.sched with
        | .ok sched2 => (true, { s2 with sched := sched2 })
        | .error _ =>
          let n3 : Notifs :=
            add_notification s2.notifs r.requester_username swapIssueMsg
              ("error") (ids 1)
          let n4 : Notifs :=
            add_notification n3 r.target_username swapIssueMsg ("error")
              (ids 2)
          (false, { s2 with notifs := n4 })
    else if status = "Rejected" then
      match lookupUser users r.target_username with
      | none => (false, s1)
      | some tu =>
        let msgRejected : String :=
          "Your shift swap request for " ++ r.date ++ " was rejected by " ++
            tu.name
        let n2 : Notifs :=
          add_notification s1.notifs r.requester_username msgRejected
            ("warning") (ids 0)
        (true, { s1 with notifs := n2 })
    else if status = "Cancelled" then
      match lookupUser users r.requester_username with
      | none => (false, s1)
      | some ru =>
        let msgCancelled : String :=
          "Shift swap request from " ++ ru.name ++ " for " ++ r.date ++
            " was cancelled"
        let n2 : Notifs :=
          add_notification s1.notifs r.target_username msgCancelled ("info")
            (ids 0)
        (true, { s1 with notifs := n2 })
    else (true, s1)

/-! ### C7: terminal states are not absorbing in the operation itself -/

def req7 : SwapRequest :=
  { request_id := "r7", requester_username := "carol"
    requester_name := "Carol", schedule_id := 0, date := "2025-01-07"
    start_time := 540, end_time := 1020, location := "Office"
    target_username := "dave", target_name := "Dave", status := "Approved"
    notes := "", auto_assigned := false }

def users7 : Users :=
  [("carol", { name := "Carol", subteam := "Ops", preferences := default }),
   ("dave", { name := "Dave", subteam := "Ops", preferences := default })]

def st7 : WFState := ⟨[req7], [], []⟩

def idsFn : Nat → String := fun _ => ""

/-- C7 counterexample: a request already in the terminal state Approved is
overwritten to Rejected by a further status update — the stored status does
not stay unchanged. -/
theorem terminal_status_overwritten_cex :
    st7.requests.map (fun r => r.status) = [("Approved" : String)] ∧
    (update_shift_request_status users7 st7 ("r7") ("Rejected")
        idsFn).2.requests.map (fun r => r.status) = [("Rejected" : String)] := by
  refine ⟨by decide, by decide⟩

/-- C7 as amended: `update_shift_request_status` applies the requested status
unconditionally — the post-state's requests are exactly the old rows with
every row of that id restatused, so a request in a terminal state is
overwritten rather than left unchanged.  (Terminality holds at the UI level
only because status-changing buttons are rendered solely for Pending
requests.) -/
theorem status_update_overwrites (users : Users) (s : WFState)
    (rid status : String) (ids : Nat → String) (r : SwapRequest)
    (hr : findRequest s.requests rid = some r) :
    (update_shift_request_status users s rid status ids).2.requests =
      set_request_status s.requests rid status ∧
    ∀ q ∈ (update_shift_request_status users s rid status ids).2.requests,
      q.request_id = rid → q.status = status := by
  have hmain : (update_shift_request_status users s rid status ids).2.requests =
      set_request_status s.requests rid status := by
    unfold update_shift_request_status
    simp only [hr]
    by_cases h1 : status = "Approved"
    · rw [if_pos h1]
      cases lookupUser users r.target_username with
      | none => rfl
      | some tu =>
        cases process_approved_swap
            (set_request_status s.requests rid status) users rid s.sched with
        | ok sched2 => rfl
        | error m => rfl
    · rw [if_neg h1]
      by_cases h2 : status = "Rejected"
      · rw [if_pos h2]
        cases lookupUser users r.target_username with
        | none => rfl
        | some tu => rfl
      · rw [if_neg h2]
        by_cases h3 : status = "Cancelled"
        · rw [if_pos h3]
          cases lookupUser users r.requester_username with
          | none => rfl
          | some ru => rfl
        · rw [if_neg h3]
  refine ⟨hmain, ?_⟩
  intro q hq hqid
  rw [hmain] at hq
  unfold set_request_status at hq
  rcases List.mem_map.mp hq with ⟨r0, _, hq0⟩
  by_cases h0 : r0.request_id = rid
  · rw [if_pos h0] at hq0
    rw [← hq0]
  · rw [if_neg h0] at hq0
    exact absurd (hq0 ▸ hqid) h0

/-- Witness for `status_update_overwrites` on the concrete Approved request
updated to Rejected. -/
theorem status_update_overwrites_witness :
    (update_shift_request_status users7 st7 ("r7") ("Rejected")
        idsFn).2.requests =
      set_request_status st7.requests ("r7") ("Rejected") ∧
    ∀ q ∈ (update_shift_request_status users7 st7 ("r7") ("Rejected")
        idsFn).2.requests, q.request_id = "r7" → q.status = "Rejected" :=
  status_update_overwrites users7 st7 ("r7") ("Rejected") idsFn req7
    (by decide)

/-! ### C6: ownership transfer on approval -/

/-- The live entry at approval time: its `auto_assigned` flag was edited to
`false` after the request snapshotted it as `true`. -/
def e6 : Entry :=
  { date := "2025-01-06", username := "alice", name := "Alice"
    subteam := "Brokerage", start_time := 540, end_time := 1020
    location := "Office", notes := "", auto_assigned := false }

def sched6 : Sched := [(0, e6)]

def req6 : SwapRequest :=
  { request_id := "r6", requester_username := "alice", requester_name := "Alice"
    schedule_id := 0, date := "2025-01-06", start_time := 540, end_time := 1020
    location := "Office", target_username := "bob", target_name := "Bob"
    status := "Approved", notes := "", auto_assigned := true }

/-- The entry the transfer of `req6` inserts. -/
def sw6 : Entry :=
  { date := "2025-01-06", username := "bob", name := "Bob"
    subteam := "Brokerage", start_time := 540, end_time := 1020
    location := "Office", notes := "Swapped with Alice", auto_assigned := true }

/-- C6 counterexample: the transfer resolves the snapshotted `schedule_id`
to the live entry `e6` (whose flag is `false` after an edit), yet the entry
it inserts carries `auto_assigned = true` — the flag is taken from the
request snapshot, not carried over from the original entry. -/
theorem swap_flag_not_from_original_cex :
    getLabel sched6 0 = some e6 ∧ e6.auto_assigned = false ∧
    process_approved_swap [req6] cexUsers ("r6") sched6 = .ok [(0, sw6)] ∧
    sw6.auto_assigned = true ∧ sw6.auto_assigned ≠ e6.auto_assigned := by
  refine ⟨by decide, by decide, by decide, by decide, by decide⟩

/-- C6 as amended: when the snapshotted `schedule_id` resolves to a live
entry the transfer deletes that entry and inserts exactly one new entry
owned by the target carrying the request's snapshotted date, start, end and
location, notes `"Swapped with <requester name>"`, and `auto_assigned` equal
to the request's snapshot of the flag (taken at request-creation time, not
re-read from the live entry); when it does not resolve, the transfer fails
with the reported error "Original schedule not found" and the schedule is
left untouched (every failure return precedes the mutation). -/
theorem swap_transfer_spec (reqs : Requests) (users : Users) (rid : String)
    (sched : Sched) (r : SwapRequest) (tu : UserData)
    (hr : findRequest reqs rid = some r)
    (hu : lookupUser users r.target_username = some tu) :
    (hasLabel sched r.schedule_id = true →
      process_approved_swap reqs users rid sched =
        .ok (concatIgnoreIndex (dropLabel sched r.schedule_id)
          [{ date := r.date, username := r.target_username
             name := r.target_name, subteam := tu.subteam
             start_time := r.start_time, end_time := r.end_time
             location := r.location
             notes := "Swapped with " ++ r.requester_name
             auto_assigned := r.auto_assigned }])) ∧
    (hasLabel sched r.schedule_id = false →
      process_approved_swap reqs users rid sched =
        .error "Original schedule not found.") := by
  unfold process_approved_swap
  simp only [hr, hu]
  constructor
  · intro h
    rw [if_pos h]
  · intro h
    rw [if_neg (by rw [h]; exact Bool.false_ne_true)]

/-- Witness for `swap_transfer_spec`: the concrete approved request `reqAB`
against the two-row schedule, where the snapshotted key resolves. -/
theorem swap_transfer_spec_witness :
    hasLabel cexSched reqAB.schedule_id = true ∧
    process_approved_swap [reqAB] cexUsers ("r1") cexSched =
      .ok (concatIgnoreIndex (dropLabel cexSched reqAB.schedule_id)
        [swEntry]) :=
  ⟨by decide,
   (swap_transfer_spec [reqAB] cexUsers ("r1") cexSched reqAB
      { name := "Bob", subteam := "Brokerage", preferences := default }
      (by decide) (by decide)).1 (by decide)⟩

/-! ### C10: approval notifies before the transfer is attempted -/

lemma get_inbox_add_notification_self (n : Notifs) (u msg ty nid : String) :
    ∃ t, get_inbox (add_notification n u msg ty nid) u =
        { id := nid, message := msg, ntype := ty, read := false } :: t ∧
      (∀ x rest, get_inbox n u = x :: rest → ∃ t2, t = x :: t2) := by
  unfold add_notification
  by_cases hlen : (({ id := nid, message := msg, ntype := ty, read := false } ::
      get_inbox n u : Inbox)).length > 50
  · refine ⟨(get_inbox n u).take 49, ?_, ?_⟩
    · rw [get_inbox_set_inbox_self, if_pos hlen]
      rw [show (50 : Nat) = 49 + 1 from rfl, List.take_succ_cons]
    · intro x rest hx
      refine ⟨rest.take 48, ?_⟩
      rw [hx, show (49 : Nat) = 48 + 1 from rfl, List.take_succ_cons]
  · refine ⟨get_inbox n u, ?_, ?_⟩
    · rw [get_inbox_set_inbox_self, if_neg hlen]
    · intro x rest hx
      exact ⟨rest, hx⟩

lemma get_inbox_add_notification_other (n : Notifs) (u v msg ty nid : String)
    (h : v ≠ u) :
    get_inbox (add_notification n u msg ty nid) v = get_inbox n v := by
  unfold add_notification
  exact get_inbox_set_inbox_other n u v _ h

/-- C10: when a status update to Approved is applied to an existing request
(with an existing target user) and the transfer on the post-update state
fails, the operation returns failure, the requester's inbox holds the error
notification on top of the success ("... was approved ...") notification that
was added before the transfer was attempted, and the target's inbox holds
the error notification. -/
theorem approval_notifies_before_transfer (users : Users) (s : WFState)
    (rid : String) (ids : Nat → String) (r : SwapRequest) (tu : UserData)
    (hr : findRequest s.requests rid = some r)
    (hu : lookupUser users r.target_username = some tu)
    (hne : r.requester_username ≠ r.target_username)
    (hfail : (process_approved_swap
        (set_request_status s.requests rid ("Approved")) users rid
        s.sched).isOk = false) :
    (update_shift_request_status users s rid ("Approved") ids).1 = false ∧
    (∃ t, get_inbox
        (update_shift_request_status users s rid ("Approved") ids).2.notifs
        r.requester_username =
      { id := ids 1, message := swapIssueMsg, ntype := "error", read := false } ::
      { id := ids 0
        message := "Your shift swap request for " ++ r.date ++
          " was approved by " ++ tu.name
        ntype := "success", read := false } :: t) ∧
    (∃ t2, get_inbox
        (update_shift_request_status users s rid ("Approved") ids).2.notifs
        r.target_username =
      { id := ids 2, message := swapIssueMsg, ntype := "error", read := false }
        :: t2) := by
  unfold update_shift_request_status
  simp only [hr, if_pos rfl, hu]
  cases hp : process_approved_swap
      (set_request_status s.requests rid ("Approved")) users rid s.sched with
  | ok sched2 =>
    rw [hp] at hfail
    cases hfail
  | error m =>
    simp only [if_true]
    refine ⟨trivial, ?_, ?_⟩
    · rcases get_inbox_add_notification_self s.notifs r.requester_username
          ("Your shift swap request for " ++ r.date ++ " was approved by " ++
            tu.name) ("success") (ids 0) with ⟨t0, h0, _⟩
      rcases get_inbox_add_notification_self
          (add_notification s.notifs r.requester_username
            ("Your shift swap request for " ++ r.date ++ " was approved by " ++
              tu.name) ("success") (ids 0))
          r.requester_username swapIssueMsg ("error") (ids 1) with
        ⟨t1, h1, hpre⟩
      rcases hpre _ _ h0 with ⟨t2, ht2⟩
      refine ⟨t2, ?_⟩
      rw [get_inbox_add_notification_other _ _ _ _ _ _ hne]
      rw [h1, ht2]
    · rcases get_inbox_add_notification_self
          (add_notification
            (add_notification s.notifs r.requester_username
              ("Your shift swap request for " ++ r.date ++
                " was approved by " ++ tu.name) ("success") (ids 0))
            r.requester_username swapIssueMsg ("error") (ids 1))
          r.target_username swapIssueMsg ("error") (ids 2) with ⟨t3, h3, _⟩
      exact ⟨t3, h3⟩

/-- Witness for `approval_notifies_before_transfer`: a Pending request whose
snapshotted schedule key does not resolve (the schedule is empty), approved
by the target — the transfer fails, both parties get the error notification
and the requester keeps the earlier success notification beneath it. -/
def req10 : SwapRequest :=
  { request_id := "r10", requester_username := "alice"
    requester_name := "Alice", schedule_id := 0, date := "2025-01-06"
    start_time := 540, end_time := 1020, location := "Office"
    target_username := "bob", target_name := "Bob", status := "Pending"
    notes := "", auto_assigned := true }

def st10 : WFState := ⟨[req10], [], []⟩

theorem approval_notifies_before_transfer_witness :
    (update_shift_request_status cexUsers st10 ("r10") ("Approved")
        idsFn).1 = false ∧
    (∃ t, get_inbox
        (update_shift_request_status cexUsers st10 ("r10") ("Approved")
          idsFn).2.notifs req10.requester_username =
      { id := idsFn 1, message := swapIssueMsg, ntype := "error"
        read := false } ::
      { id := idsFn 0
        message := "Your shift swap request for " ++ req10.date ++
          " was approved by " ++ "Bob"
        ntype := "success", read := false } :: t) ∧
    (∃ t2, get_inbox
        (update_shift_request_status cexUsers st10 ("r10") ("Approved")
          idsFn).2.notifs req10.target_username =
      { id := idsFn 2, message := swapIssueMsg, ntype := "error"
        read := false } :: t2) :=
  approval_notifies_before_transfer cexUsers st10 ("r10") idsFn req10
    { name := "Bob", subteam := "Brokerage", preferences := default }
    (by decide) (by decide) (by decide) (by decide)

end ShiftApp
